import Mathlib

/-!
Shallow embedding of the two-phase separator simulator
(src/fluid.py, src/valve.py, src/separator.py, src/net_separator.py).

Real numbers stand for Python floats; exceptions are modelled with
`Except`.  Field and function names follow the Python source.
-/

namespace SepSim

/-- Fluid parameters (src/separator.py `FluidParameters`, all fields set). -/
structure FluidParameters where
  gas_molar_mass : ℝ
  liquid_density : ℝ
  temperature : ℝ
  R : ℝ

/-- Separator geometry (src/separator.py `SeparatorParameters`). -/
structure SeparatorParameters where
  volume : ℝ
  area : ℝ

/-- Separator dynamic state (src/separator.py `SeparatorState`). -/
structure SeparatorState where
  mass_gas : ℝ
  mass_liquid : ℝ
  volume_liquid : ℝ
  volume_gas : ℝ
  pressure_gas : ℝ
  pressure_liquid : ℝ
  level_liquid : ℝ

/-- `SeparatorState.default_values`: the empty state. -/
def SeparatorState.default_values : SeparatorState :=
  { mass_gas := 0, mass_liquid := 0, volume_liquid := 0, volume_gas := 0,
    pressure_gas := 0, pressure_liquid := 0, level_liquid := 0 }

/-- `SeparatorModel.step` (src/separator.py lines 72-120): explicit Euler mass
update floored at 0, liquid volume from constant density, gas volume,
overflow clamp, ideal-gas pressure, level and hydrostatic liquid pressure. -/
noncomputable def SeparatorModel.step (fluid : FluidParameters)
    (parameters : SeparatorParameters) (state : SeparatorState)
    (dt omegamix Gin_mix Ggas Gliquid : ℝ) : SeparatorState :=
  let Gin_gas := Gin_mix * omegamix
  let Gin_liquid := Gin_mix * (1 - omegamix)
  let delta_mass_gas := (Gin_gas - Ggas) * dt
  let mass_gas1 := max 0 (state.mass_gas + delta_mass_gas)
  let delta_mass_liquid := (Gin_liquid - Gliquid) * dt
  let mass_liquid1 := max 0 (state.mass_liquid + delta_mass_liquid)
  let volume_liquid1 := mass_liquid1 / fluid.liquid_density
  let volume_gas1 := if mass_gas1 > 0 then max 0 (parameters.volume - volume_liquid1) else 0
  let overflow := volume_liquid1 > parameters.volume
  let volume_liquid2 := if overflow then parameters.volume else volume_liquid1
  let volume_gas2 := if overflow then 0 else volume_gas1
  let mass_liquid2 := if overflow then parameters.volume * fluid.liquid_density else mass_liquid1
  let mass_gas2 := if overflow then 0 else mass_gas1
  let pressure_gas2 :=
    if volume_gas2 > 0 ∧ mass_gas2 > 0 then
      (mass_gas2 / (fluid.gas_molar_mass * volume_gas2)) * (fluid.R * fluid.temperature)
    else 0
  let level_liquid2 := if parameters.area > 0 then volume_liquid2 / parameters.area else 0
  let pressure_liquid2 := pressure_gas2 + fluid.liquid_density * level_liquid2 * 10
  { mass_gas := mass_gas2, mass_liquid := mass_liquid2,
    volume_liquid := volume_liquid2, volume_gas := volume_gas2,
    pressure_gas := pressure_gas2, pressure_liquid := pressure_liquid2,
    level_liquid := level_liquid2 }

/-- Valve characteristic family (src/valve.py `KvType`). -/
inductive KvType where
  | Linear
  | EqualPercent
  | Parabolic
deriving DecidableEq

/-- Errors raised by the valve code (`ValueError` variants in src/valve.py). -/
inductive ValveError where
  | invalidParameters
  | invalidOpening
  | nonPositiveKv0
  | nonPositiveDensity
  | negativePressure
deriving DecidableEq

/-- Raw valve parameters with optional fields (src/valve.py `ValveParameters`:
attributes start as `None`). -/
structure ValveParameters where
  kv0 : Option ℝ
  kv100 : Option ℝ
  type : Option KvType
  cutoff : Option Bool

/-- The list of error messages collected by `ValveParameters.validate`
(src/valve.py lines 36-56), one tag per appended message. -/
inductive ValveConfigIssue where
  | kvNotSet
  | kvNegative
  | kv0GreaterThanKv100
  | typeNotSet
  | cutoffNotSet
deriving DecidableEq

/-- The `errors` list built inside `ValveParameters.validate`. -/
noncomputable def ValveParameters.validationErrors (p : ValveParameters) :
    List ValveConfigIssue :=
  (if p.kv0 = none ∨ p.kv100 = none then [ValveConfigIssue.kvNotSet]
   else if p.kv0.getD 0 < 0 ∨ p.kv100.getD 0 < 0 then [ValveConfigIssue.kvNegative]
   else if p.kv0.getD 0 > p.kv100.getD 0 then [ValveConfigIssue.kv0GreaterThanKv100]
   else []) ++
  (if p.type = none then [ValveConfigIssue.typeNotSet] else []) ++
  (if p.cutoff = none then [ValveConfigIssue.cutoffNotSet] else [])

/-- `ValveParameters.validate`: raises `ValueError` when the collected error
list is non-empty, otherwise returns `True`. -/
noncomputable def ValveParameters.validate (p : ValveParameters) :
    Except ValveError Bool :=
  if p.validationErrors ≠ [] then Except.error ValveError.invalidParameters
  else Except.ok true

/-- A constructed valve model: `ValveModel.__init__` has validated the
parameters, so all fields are present. -/
structure ValveModel where
  kv0 : ℝ
  kv100 : ℝ
  type : KvType
  cutoff : Bool

/-- `ValveModel(valve_parameters)`: validate, then store the parameters. -/
noncomputable def ValveModel.ofParameters (p : ValveParameters) :
    Except ValveError ValveModel :=
  match p.validate with
  | Except.error e => Except.error e
  | Except.ok _ =>
    match p.kv0, p.kv100, p.type, p.cutoff with
    | some kv0, some kv100, some t, some c =>
        Except.ok { kv0 := kv0, kv100 := kv100, type := t, cutoff := c }
    | _, _, _, _ => Except.error ValveError.invalidParameters

/-- `ValveModel.calc_kv` (src/valve.py lines 70-115).  `math.isclose(x, 0.0)`
with the default tolerances holds exactly when `x = 0`. -/
noncomputable def ValveModel.calc_kv (m : ValveModel) (opening : ℝ) :
    Except ValveError ℝ :=
  if opening < 0 ∨ opening > 1 then Except.error ValveError.invalidOpening
  else
    let opening := max 0 (min 1 opening)
    if opening = 0 ∧ m.cutoff then Except.ok 0
    else
      match m.type with
      | KvType.Linear => Except.ok (m.kv0 + opening * (m.kv100 - m.kv0))
      | KvType.EqualPercent =>
          if m.kv0 ≤ 0 then Except.error ValveError.nonPositiveKv0
          else Except.ok (m.kv0 * (m.kv100 / m.kv0) ^ opening)
      | KvType.Parabolic => Except.ok (m.kv0 + (m.kv100 - m.kv0) * opening ^ (2 : ℕ))

/-- `ValveModel.get_volumetric_flow` (src/valve.py lines 117-151). -/
noncomputable def ValveModel.get_volumetric_flow (m : ValveModel)
    (opening density pressure_in pressure_out : ℝ) : Except ValveError ℝ :=
  if density ≤ 0 then Except.error ValveError.nonPositiveDensity
  else if pressure_in < 0 ∨ pressure_out < 0 then Except.error ValveError.negativePressure
  else
    let dp := pressure_in - pressure_out
    if dp < 0 then Except.ok 0
    else do
      let kv ← m.calc_kv opening
      Except.ok ((kv / 35700) * Real.sqrt (dp / density))

/-- `ValveModel.get_mass_flow`: `G = density * Q`. -/
noncomputable def ValveModel.get_mass_flow (m : ValveModel)
    (opening density pressure_in pressure_out : ℝ) : Except ValveError ℝ := do
  let q ← m.get_volumetric_flow opening density pressure_in pressure_out
  Except.ok (density * q)

/-- Control inputs of one tick (src/net_separator.py `NetSeparatorControl`). -/
structure NetSeparatorControl where
  valve_in_opening : ℝ
  valve_gas_opening : ℝ
  valve_liquid_opening : ℝ
  omega_in : ℝ
  pressure_out : ℝ
  pressure_in : ℝ

/-- The constructed composition root: fluid and geometry parameters plus the
three validated valve models (src/net_separator.py `NetSeparatorModel`). -/
structure NetSeparatorModel where
  fluid_parameters : FluidParameters
  separator_parameters : SeparatorParameters
  valve_in_model : ValveModel
  valve_gas_model : ValveModel
  valve_liquid_model : ValveModel

/-- Published state after a tick (src/net_separator.py `NetSeparatorState`). -/
structure NetSeparatorState where
  separator_state : SeparatorState
  density_gas : ℝ
  density_liquid : ℝ
  G_in : ℝ
  G_gas : ℝ
  G_liquid : ℝ

/-- Gas density branch of `NetSeparatorModel._calculate_densities`
(src/net_separator.py lines 140-154). -/
noncomputable def NetSeparatorModel.density_gas_of (net : NetSeparatorModel)
    (s : SeparatorState) : ℝ :=
  if s.volume_gas > 0 ∧ s.pressure_gas > 0 then
    s.pressure_gas * net.fluid_parameters.gas_molar_mass /
      (net.fluid_parameters.R * net.fluid_parameters.temperature)
  else 0

/-- `NetSeparatorModel._calculate_mixture_density` (lines 193-204). -/
noncomputable def NetSeparatorModel.mixture_density (density_gas density_liquid omega : ℝ) : ℝ :=
  if omega = 0 then density_liquid
  else if omega = 1 then density_gas
  else if density_gas > 0 ∧ density_liquid > 0 then
    1 / (omega / density_gas + (1 - omega) / density_liquid)
  else density_liquid

/-- `NetSeparatorModel._calculate_flows` (lines 156-191): gas valve, then
liquid valve, then inlet valve, each fed the separator pressures of the
state passed in.  Returns `(G_gas, G_liquid, G_in)` in evaluation order. -/
noncomputable def NetSeparatorModel.calculate_flows (net : NetSeparatorModel)
    (s : SeparatorState) (density_gas density_liquid : ℝ)
    (control : NetSeparatorControl) : Except ValveError (ℝ × ℝ × ℝ) := do
  let g_gas ← net.valve_gas_model.get_mass_flow control.valve_gas_opening
    density_gas s.pressure_gas control.pressure_out
  let g_liquid ← net.valve_liquid_model.get_mass_flow control.valve_liquid_opening
    density_liquid s.pressure_liquid control.pressure_out
  let density_mix := NetSeparatorModel.mixture_density density_gas density_liquid control.omega_in
  let g_in ← net.valve_in_model.get_mass_flow control.valve_in_opening
    density_mix control.pressure_in s.pressure_gas
  Except.ok (g_gas, g_liquid, g_in)

/-- `NetSeparatorModel.step` (lines 118-138): densities from the entry state,
flows from the entry state's pressures, one `SeparatorModel.step` call. -/
noncomputable def NetSeparatorModel.step (net : NetSeparatorModel)
    (s : SeparatorState) (dt : ℝ) (control : NetSeparatorControl) :
    Except ValveError NetSeparatorState := do
  let density_liquid := net.fluid_parameters.liquid_density
  let density_gas := net.density_gas_of s
  let flows ← net.calculate_flows s density_gas density_liquid control
  let sep := SeparatorModel.step net.fluid_parameters net.separator_parameters s
    dt control.omega_in flows.2.2 flows.1 flows.2.1
  Except.ok
    { separator_state := sep, density_gas := density_gas,
      density_liquid := density_liquid, G_in := flows.2.2, G_gas := flows.1,
      G_liquid := flows.2.1 }

/-- Modelled from the spec: `SeparatorModel.initialize_level_pressure` is
called by `NetSeparatorModel.initialize_level_pressure` (src/net_separator.py
line 114) but its definition does not appear under src/.  Per the spec it
back-solves liquid volume from level × area, gas volume from vessel volume
minus liquid volume, gas mass from the ideal-gas law inverted at the given
pressure, liquid mass from liquid volume × density, and sets the pressures
consistently (liquid pressure = gas pressure + density · level · 10). -/
noncomputable def SeparatorModel.initialize_level_pressure (fluid : FluidParameters)
    (parameters : SeparatorParameters) (level_liquid pressure_gas : ℝ) :
    SeparatorState :=
  let volume_liquid := level_liquid * parameters.area
  let volume_gas := parameters.volume - volume_liquid
  let mass_gas := pressure_gas * fluid.gas_molar_mass * volume_gas /
    (fluid.R * fluid.temperature)
  let mass_liquid := volume_liquid * fluid.liquid_density
  { mass_gas := mass_gas, mass_liquid := mass_liquid,
    volume_liquid := volume_liquid, volume_gas := volume_gas,
    pressure_gas := pressure_gas,
    pressure_liquid := pressure_gas + fluid.liquid_density * level_liquid * 10,
    level_liquid := level_liquid }

/-- `NetSeparatorModel.initialize_level_pressure` (src/net_separator.py lines
112-116): delegate to the separator model and store the result. -/
noncomputable def NetSeparatorModel.initialize_level_pressure (net : NetSeparatorModel)
    (level_liquid pressure_gas : ℝ) : SeparatorState :=
  SeparatorModel.initialize_level_pressure net.fluid_parameters
    net.separator_parameters level_liquid pressure_gas

/-- The invariant of §3 of the spec on a separator state. -/
def SeparatorInvariant (parameters : SeparatorParameters) (s : SeparatorState) : Prop :=
  0 ≤ s.mass_gas ∧ 0 ≤ s.mass_liquid ∧ 0 ≤ s.volume_liquid ∧
  s.volume_liquid ≤ parameters.volume ∧
  s.volume_liquid + s.volume_gas ≤ parameters.volume

/-- Concrete fluid used to instantiate the theorems below. -/
def testFluid : FluidParameters :=
  { gas_molar_mass := 1, liquid_density := 1000, temperature := 1, R := 1 }

/-- Concrete separator geometry used to instantiate the theorems below. -/
def testGeometry : SeparatorParameters := { volume := 100, area := 10 }

/-- A linear valve with kv0 = 1, kv100 = 2 and no cutoff. -/
def linValve : ValveModel :=
  { kv0 := 1, kv100 := 2, type := KvType.Linear, cutoff := false }

/-- A degenerate linear valve with zero Kv everywhere. -/
def zeroValve : ValveModel :=
  { kv0 := 0, kv100 := 0, type := KvType.Linear, cutoff := false }

/-- A concrete net separator built from the test parameters and valves. -/
def testNet : NetSeparatorModel :=
  { fluid_parameters := testFluid, separator_parameters := testGeometry,
    valve_in_model := zeroValve, valve_gas_model := zeroValve,
    valve_liquid_model := zeroValve }

/-- A concrete separator state with gas present and unit pressures. -/
def testState : SeparatorState :=
  { mass_gas := 1, mass_liquid := 0, volume_liquid := 0, volume_gas := 1,
    pressure_gas := 1, pressure_liquid := 1, level_liquid := 0 }

/-- A concrete control input with open valves and equal pressures. -/
def testControl : NetSeparatorControl :=
  { valve_in_opening := 1, valve_gas_opening := 1, valve_liquid_opening := 1,
    omega_in := 0, pressure_out := 1, pressure_in := 1 }

/-- Equal-percentage valve parameters with kv0 = 0 and every field set. -/
def epZeroParams : ValveParameters :=
  { kv0 := some 0, kv100 := some 10, type := some KvType.EqualPercent,
    cutoff := some true }

/-- C1: for non-negative masses, dt ≥ 0, omega in [0,1] and non-negative
flows, when the resulting liquid volume does not exceed the vessel volume,
`SeparatorModel.step` sets the new gas mass to
max(0, old + (Gin_mix·omega − Ggas)·dt) and the new liquid mass to
max(0, old + (Gin_mix·(1 − omega) − Gliquid)·dt). -/
theorem step_mass_balance_no_overflow (fluid : FluidParameters)
    (parameters : SeparatorParameters) (s : SeparatorState)
    (dt omegamix Gin_mix Ggas Gliquid : ℝ)
    (hmg : 0 ≤ s.mass_gas) (hml : 0 ≤ s.mass_liquid) (hdt : 0 ≤ dt)
    (hw0 : 0 ≤ omegamix) (hw1 : omegamix ≤ 1)
    (hGin : 0 ≤ Gin_mix) (hGgas : 0 ≤ Ggas) (hGliq : 0 ≤ Gliquid)
    (hnoov : max 0 (s.mass_liquid + (Gin_mix * (1 - omegamix) - Gliquid) * dt) /
      fluid.liquid_density ≤ parameters.volume) :
    (SeparatorModel.step fluid parameters s dt omegamix Gin_mix Ggas Gliquid).mass_gas
      = max 0 (s.mass_gas + (Gin_mix * omegamix - Ggas) * dt) ∧
    (SeparatorModel.step fluid parameters s dt omegamix Gin_mix Ggas Gliquid).mass_liquid
      = max 0 (s.mass_liquid + (Gin_mix * (1 - omegamix) - Gliquid) * dt) := by
  have h : ¬ (max 0 (s.mass_liquid + (Gin_mix * (1 - omegamix) - Gliquid) * dt) /
      fluid.liquid_density > parameters.volume) := not_lt.mpr hnoov
  constructor <;> simp only [SeparatorModel.step, if_neg h]

/-- C1 witness: the mass-balance theorem at the empty state with zero flows. -/
theorem step_mass_balance_no_overflow_witness :
    (SeparatorModel.step testFluid testGeometry SeparatorState.default_values
      1 0 0 0 0).mass_gas
      = max 0 (SeparatorState.default_values.mass_gas + (0 * 0 - 0) * 1) ∧
    (SeparatorModel.step testFluid testGeometry SeparatorState.default_values
      1 0 0 0 0).mass_liquid
      = max 0 (SeparatorState.default_values.mass_liquid + (0 * (1 - 0) - 0) * 1) :=
  step_mass_balance_no_overflow testFluid testGeometry SeparatorState.default_values
    1 0 0 0 0
    (by norm_num [SeparatorState.default_values])
    (by norm_num [SeparatorState.default_values])
    (by norm_num) (by norm_num) (by norm_num) (by norm_num) (by norm_num) (by norm_num)
    (by norm_num [SeparatorState.default_values, testFluid, testGeometry])

/-- C2: any input that drives the computed liquid volume strictly above the
vessel volume yields a state with liquid volume equal to the vessel volume,
gas volume 0, gas mass 0, gas pressure 0, and liquid mass equal to vessel
volume times liquid density. -/
theorem step_overflow_clamp (fluid : FluidParameters)
    (parameters : SeparatorParameters) (s : SeparatorState)
    (dt omegamix Gin_mix Ggas Gliquid : ℝ)
    (hover : parameters.volume <
      max 0 (s.mass_liquid + (Gin_mix * (1 - omegamix) - Gliquid) * dt) /
        fluid.liquid_density) :
    (SeparatorModel.step fluid parameters s dt omegamix Gin_mix Ggas Gliquid).volume_liquid
      = parameters.volume ∧
    (SeparatorModel.step fluid parameters s dt omegamix Gin_mix Ggas Gliquid).volume_gas
      = 0 ∧
    (SeparatorModel.step fluid parameters s dt omegamix Gin_mix Ggas Gliquid).mass_gas
      = 0 ∧
    (SeparatorModel.step fluid parameters s dt omegamix Gin_mix Ggas Gliquid).pressure_gas
      = 0 ∧
    (SeparatorModel.step fluid parameters s dt omegamix Gin_mix Ggas Gliquid).mass_liquid
      = parameters.volume * fluid.liquid_density := by
  refine ⟨?_, ?_, ?_, ?_, ?_⟩ <;>
    simp only [SeparatorModel.step, if_pos hover, gt_iff_lt, lt_self_iff_false,
      false_and, if_false, if_neg (lt_irrefl (0 : ℝ))] <;>
    simp

/-- C2 witness: pouring 200000 kg of liquid into the empty test vessel in one
second overflows it (vessel volume 100 m³, density 1000 kg/m³). -/
theorem step_overflow_clamp_witness :
    (SeparatorModel.step testFluid testGeometry SeparatorState.default_values
      1 0 200000 0 0).volume_liquid = testGeometry.volume ∧
    (SeparatorModel.step testFluid testGeometry SeparatorState.default_values
      1 0 200000 0 0).volume_gas = 0 ∧
    (SeparatorModel.step testFluid testGeometry SeparatorState.default_values
      1 0 200000 0 0).mass_gas = 0 ∧
    (SeparatorModel.step testFluid testGeometry SeparatorState.default_values
      1 0 200000 0 0).pressure_gas = 0 ∧
    (SeparatorModel.step testFluid testGeometry SeparatorState.default_values
      1 0 200000 0 0).mass_liquid = testGeometry.volume * testFluid.liquid_density :=
  step_overflow_clamp testFluid testGeometry SeparatorState.default_values
    1 0 200000 0 0
    (by norm_num [SeparatorState.default_values, testFluid, testGeometry])

/-- C3: for every state satisfying the invariant (non-negative masses,
0 ≤ liquid volume ≤ vessel volume, liquid volume + gas volume ≤ vessel
volume) and every admissible step input (dt ≥ 0, omega in [0,1],
non-negative flows, positive liquid density and vessel volume), the state
returned by `SeparatorModel.step` satisfies the same invariant. -/
theorem step_preserves_invariant (fluid : FluidParameters)
    (parameters : SeparatorParameters) (s : SeparatorState)
    (dt omegamix Gin_mix Ggas Gliquid : ℝ)
    (hinv : SeparatorInvariant parameters s)
    (hdt : 0 ≤ dt) (hw0 : 0 ≤ omegamix) (hw1 : omegamix ≤ 1)
    (hGin : 0 ≤ Gin_mix) (hGgas : 0 ≤ Ggas) (hGliq : 0 ≤ Gliquid)
    (hrho : 0 < fluid.liquid_density) (hvol : 0 < parameters.volume) :
    SeparatorInvariant parameters
      (SeparatorModel.step fluid parameters s dt omegamix Gin_mix Ggas Gliquid) := by
  have hml1 : (0:ℝ) ≤ max 0 (s.mass_liquid + (Gin_mix * (1 - omegamix) - Gliquid) * dt) :=
    le_max_left _ _
  have hmg1 : (0:ℝ) ≤ max 0 (s.mass_gas + (Gin_mix * omegamix - Ggas) * dt) :=
    le_max_left _ _
  have hvl1 : (0:ℝ) ≤ max 0 (s.mass_liquid + (Gin_mix * (1 - omegamix) - Gliquid) * dt) /
      fluid.liquid_density := div_nonneg hml1 hrho.le
  by_cases hov : max 0 (s.mass_liquid + (Gin_mix * (1 - omegamix) - Gliquid) * dt) /
      fluid.liquid_density > parameters.volume
  · simp only [SeparatorModel.step, if_pos hov, SeparatorInvariant]
    refine ⟨le_refl 0, mul_nonneg hvol.le hrho.le, hvol.le, le_refl _, by simp⟩
  · simp only [SeparatorModel.step, if_neg hov, SeparatorInvariant]
    push_neg at hov
    refine ⟨hmg1, hml1, hvl1, hov, ?_⟩
    by_cases hg : max 0 (s.mass_gas + (Gin_mix * omegamix - Ggas) * dt) > 0
    · rw [if_pos hg, max_eq_right (sub_nonneg.mpr hov)]
      ring_nf
      exact le_refl _
    · rw [if_neg hg]
      simpa using hov

/-- C3 witness: the invariant theorem applied at the empty state with unit
time step and zero flows. -/
theorem step_preserves_invariant_witness :
    SeparatorInvariant testGeometry
      (SeparatorModel.step testFluid testGeometry SeparatorState.default_values
        1 0 0 0 0) :=
  step_preserves_invariant testFluid testGeometry SeparatorState.default_values
    1 0 0 0 0
    (by norm_num [SeparatorInvariant, SeparatorState.default_values, testGeometry])
    (by norm_num) (by norm_num) (by norm_num) (by norm_num) (by norm_num) (by norm_num)
    (by norm_num [testFluid]) (by norm_num [testGeometry])

/-- C4: in every call to `NetSeparatorModel.step`, the three valve mass
flows are computed from the separator pressures as they were at entry to
the step, and `SeparatorModel.step` is then invoked exactly once with those
flows; the published state is exactly that one-pass composition, with no
recomputation of flows after the separator update. -/
theorem net_step_staggered (net : NetSeparatorModel) (s : SeparatorState)
    (dt : ℝ) (control : NetSeparatorControl) (gg gl gi : ℝ)
    (hg : net.valve_gas_model.get_mass_flow control.valve_gas_opening
      (net.density_gas_of s) s.pressure_gas control.pressure_out = Except.ok gg)
    (hl : net.valve_liquid_model.get_mass_flow control.valve_liquid_opening
      net.fluid_parameters.liquid_density s.pressure_liquid control.pressure_out
      = Except.ok gl)
    (hi : net.valve_in_model.get_mass_flow control.valve_in_opening
      (NetSeparatorModel.mixture_density (net.density_gas_of s)
        net.fluid_parameters.liquid_density control.omega_in)
      control.pressure_in s.pressure_gas = Except.ok gi) :
    net.step s dt control = Except.ok
      { separator_state := SeparatorModel.step net.fluid_parameters
          net.separator_parameters s dt control.omega_in gi gg gl,
        density_gas := net.density_gas_of s,
        density_liquid := net.fluid_parameters.liquid_density,
        G_in := gi, G_gas := gg, G_liquid := gl } := by
  simp only [NetSeparatorModel.step, NetSeparatorModel.calculate_flows, hg, hl, hi,
    bind, Except.bind]

/-- C4 witness: the staggered-coupling theorem at the test net separator,
test state and test control, where all three flows evaluate to 0. -/
theorem net_step_staggered_witness :
    testNet.step testState 1 testControl = Except.ok
      { separator_state := SeparatorModel.step testNet.fluid_parameters
          testNet.separator_parameters testState 1 testControl.omega_in 0 0 0,
        density_gas := testNet.density_gas_of testState,
        density_liquid := testNet.fluid_parameters.liquid_density,
        G_in := 0, G_gas := 0, G_liquid := 0 } :=
  net_step_staggered testNet testState 1 testControl 0 0 0
    (by simp only [ValveModel.get_mass_flow, ValveModel.get_volumetric_flow,
        ValveModel.calc_kv, NetSeparatorModel.density_gas_of,
        testNet, testState, testControl, zeroValve, testFluid]
        norm_num [bind, Except.bind])
    (by simp only [ValveModel.get_mass_flow, ValveModel.get_volumetric_flow,
        ValveModel.calc_kv, testNet, testState, testControl, zeroValve, testFluid]
        norm_num [bind, Except.bind])
    (by simp only [ValveModel.get_mass_flow, ValveModel.get_volumetric_flow,
        ValveModel.calc_kv, NetSeparatorModel.mixture_density,
        NetSeparatorModel.density_gas_of,
        testNet, testState, testControl, zeroValve, testFluid]
        norm_num [bind, Except.bind])

/-- C10: calling `NetSeparatorModel.step` on a state whose gas volume or gas
pressure is 0 (in particular the default empty initial state) fails for
every control input: the derived gas density is 0 and the gas valve's
positive-density precondition rejects it before any separator update. -/
theorem net_step_zero_gas_error (net : NetSeparatorModel) (s : SeparatorState)
    (dt : ℝ) (control : NetSeparatorControl)
    (h : s.volume_gas = 0 ∨ s.pressure_gas = 0) :
    net.step s dt control = Except.error ValveError.nonPositiveDensity := by
  have hdg : net.density_gas_of s = 0 := by
    unfold NetSeparatorModel.density_gas_of
    rcases h with h | h <;> rw [if_neg] <;> simp [h]
  simp only [NetSeparatorModel.step, NetSeparatorModel.calculate_flows,
    ValveModel.get_mass_flow, ValveModel.get_volumetric_flow, hdg,
    if_pos (le_refl (0:ℝ)), bind, Except.bind]

/-- C10 witness: stepping the test net separator from the default empty
state raises the positive-density error. -/
theorem net_step_zero_gas_error_witness :
    testNet.step SeparatorState.default_values 1 testControl
      = Except.error ValveError.nonPositiveDensity :=
  net_step_zero_gas_error testNet SeparatorState.default_values 1 testControl
    (Or.inl rfl)

/-- C5: for every opening in [0,1], density > 0 and non-negative pressures,
`get_volumetric_flow` returns exactly 0 when p_in < p_out; when p_in ≥ p_out
it returns (calc_kv(opening)/35700)·√((p_in − p_out)/density), which is
strictly positive when p_in > p_out and Kv > 0; and `get_mass_flow` returns
density times the volumetric flow. -/
theorem get_volumetric_flow_spec (m : ValveModel)
    (opening density pressure_in pressure_out : ℝ)
    (ho0 : 0 ≤ opening) (ho1 : opening ≤ 1) (hd : 0 < density)
    (hpi : 0 ≤ pressure_in) (hpo : 0 ≤ pressure_out) :
    (pressure_in < pressure_out →
      m.get_volumetric_flow opening density pressure_in pressure_out = Except.ok 0) ∧
    (pressure_out ≤ pressure_in → ∀ kv, m.calc_kv opening = Except.ok kv →
      m.get_volumetric_flow opening density pressure_in pressure_out
        = Except.ok ((kv / 35700) * Real.sqrt ((pressure_in - pressure_out) / density)) ∧
      (pressure_out < pressure_in → 0 < kv →
        0 < (kv / 35700) * Real.sqrt ((pressure_in - pressure_out) / density))) ∧
    (∀ q, m.get_volumetric_flow opening density pressure_in pressure_out = Except.ok q →
      m.get_mass_flow opening density pressure_in pressure_out
        = Except.ok (density * q)) := by
  have hnd : ¬ (density ≤ 0) := not_le.mpr hd
  have hnp : ¬ (pressure_in < 0 ∨ pressure_out < 0) := by
    push_neg
    exact ⟨hpi, hpo⟩
  refine ⟨?_, ?_, ?_⟩
  · intro hlt
    have hdp : pressure_in - pressure_out < 0 := sub_neg.mpr hlt
    simp only [ValveModel.get_volumetric_flow, if_neg hnd, if_neg hnp, if_pos hdp]
  · intro hge kv hkv
    have hdp : ¬ (pressure_in - pressure_out < 0) := not_lt.mpr (sub_nonneg.mpr hge)
    constructor
    · simp only [ValveModel.get_volumetric_flow, if_neg hnd, if_neg hnp, if_neg hdp,
        hkv, bind, Except.bind]
    · intro hstrict hkvpos
      have hdppos : 0 < (pressure_in - pressure_out) / density :=
        div_pos (sub_pos.mpr hstrict) hd
      exact mul_pos (div_pos hkvpos (by norm_num)) (Real.sqrt_pos.mpr hdppos)
  · intro q hq
    simp only [ValveModel.get_mass_flow, hq, bind, Except.bind]

/-- C5 witness: the flow-equation theorem at the linear test valve with
opening 1, density 1 and pressures 2 and 1. -/
theorem get_volumetric_flow_spec_witness :
    ((2:ℝ) < 1 →
      linValve.get_volumetric_flow 1 1 2 1 = Except.ok 0) ∧
    ((1:ℝ) ≤ 2 → ∀ kv, linValve.calc_kv 1 = Except.ok kv →
      linValve.get_volumetric_flow 1 1 2 1
        = Except.ok ((kv / 35700) * Real.sqrt (((2:ℝ) - 1) / 1)) ∧
      ((1:ℝ) < 2 → 0 < kv →
        0 < (kv / 35700) * Real.sqrt (((2:ℝ) - 1) / 1))) ∧
    (∀ q, linValve.get_volumetric_flow 1 1 2 1 = Except.ok q →
      linValve.get_mass_flow 1 1 2 1 = Except.ok (1 * q)) :=
  get_volumetric_flow_spec linValve 1 1 2 1
    (by norm_num) (by norm_num) (by norm_num) (by norm_num) (by norm_num)

/-- For an opening within [0,1] the range check and the clamping in
`calc_kv` are inert, leaving the cutoff test and the family formula. -/
theorem calc_kv_eq_of_bounds (m : ValveModel) (o : ℝ) (h0 : 0 ≤ o) (h1 : o ≤ 1) :
    m.calc_kv o =
      if o = 0 ∧ m.cutoff then Except.ok 0
      else match m.type with
        | KvType.Linear => Except.ok (m.kv0 + o * (m.kv100 - m.kv0))
        | KvType.EqualPercent =>
            if m.kv0 ≤ 0 then Except.error ValveError.nonPositiveKv0
            else Except.ok (m.kv0 * (m.kv100 / m.kv0) ^ o)
        | KvType.Parabolic => Except.ok (m.kv0 + (m.kv100 - m.kv0) * o ^ (2:ℕ)) := by
  have hrange : ¬ (o < 0 ∨ o > 1) := by
    push_neg
    exact ⟨h0, h1⟩
  have hn : max 0 (min 1 o) = o := by rw [min_eq_right h1, max_eq_right h0]
  simp only [ValveModel.calc_kv, if_neg hrange, hn]

/-- Any Kv value returned by `calc_kv` is non-negative when the valve
parameters satisfy 0 ≤ kv0 ≤ kv100. -/
theorem calc_kv_nonneg (m : ValveModel) (o k : ℝ)
    (hkv0 : 0 ≤ m.kv0) (hk : m.kv0 ≤ m.kv100)
    (h0 : 0 ≤ o) (h1 : o ≤ 1) (hok : m.calc_kv o = Except.ok k) : 0 ≤ k := by
  rw [calc_kv_eq_of_bounds m o h0 h1] at hok
  obtain ⟨kv0, kv100, ty, cut⟩ := m
  simp only at hok hkv0 hk
  by_cases hc : o = 0 ∧ cut
  · rw [if_pos hc] at hok
    simp only [Except.ok.injEq] at hok
    exact hok ▸ le_refl 0
  · rw [if_neg hc] at hok
    cases ty with
    | Linear =>
      simp only [Except.ok.injEq] at hok
      subst hok
      exact add_nonneg hkv0 (mul_nonneg h0 (sub_nonneg.mpr hk))
    | EqualPercent =>
      by_cases hz : kv0 ≤ 0
      · rw [if_pos hz] at hok
        exact absurd hok (by simp)
      · rw [if_neg hz] at hok
        simp only [Except.ok.injEq] at hok
        subst hok
        exact mul_nonneg hkv0 (Real.rpow_nonneg (div_nonneg (hkv0.trans hk) hkv0) o)
    | Parabolic =>
      simp only [Except.ok.injEq] at hok
      subst hok
      exact add_nonneg hkv0 (mul_nonneg (sub_nonneg.mpr hk) (pow_nonneg h0 2))

/-- C6: for every valve with 0 ≤ kv0 ≤ kv100 (and kv0 > 0 when the family is
EqualPercent) and every pair of openings 0 ≤ o1 ≤ o2 ≤ 1, whenever
`calc_kv` returns values at both openings they are ordered:
calc_kv(o1) ≤ calc_kv(o2), for each characteristic family and with cutoff
either enabled or disabled. -/
theorem calc_kv_monotone (m : ValveModel) (o1 o2 k1 k2 : ℝ)
    (hkv0 : 0 ≤ m.kv0) (hk : m.kv0 ≤ m.kv100)
    (hep : m.type = KvType.EqualPercent → 0 < m.kv0)
    (h0 : 0 ≤ o1) (h12 : o1 ≤ o2) (h21 : o2 ≤ 1)
    (hk1 : m.calc_kv o1 = Except.ok k1) (hk2 : m.calc_kv o2 = Except.ok k2) :
    k1 ≤ k2 := by
  have h1le : o1 ≤ 1 := h12.trans h21
  have h20 : 0 ≤ o2 := h0.trans h12
  have hk2nn : 0 ≤ k2 := calc_kv_nonneg m o2 k2 hkv0 hk h20 h21 hk2
  rw [calc_kv_eq_of_bounds m o1 h0 h1le] at hk1
  rw [calc_kv_eq_of_bounds m o2 h20 h21] at hk2
  by_cases hc1 : o1 = 0 ∧ m.cutoff
  · rw [if_pos hc1] at hk1
    simp only [Except.ok.injEq] at hk1
    exact hk1 ▸ hk2nn
  · have hc2 : ¬ (o2 = 0 ∧ m.cutoff) := by
      rintro ⟨h2z, hcut⟩
      exact hc1 ⟨le_antisymm (h2z ▸ h12) h0, hcut⟩
    rw [if_neg hc1] at hk1
    rw [if_neg hc2] at hk2
    obtain ⟨kv0, kv100, ty, cut⟩ := m
    simp only at hk1 hk2 hkv0 hk hep
    cases ty with
    | Linear =>
      simp only [Except.ok.injEq] at hk1 hk2
      subst hk1
      subst hk2
      have := mul_le_mul_of_nonneg_right h12 (sub_nonneg.mpr hk)
      linarith
    | EqualPercent =>
      have hpos : 0 < kv0 := hep rfl
      rw [if_neg (not_le.mpr hpos)] at hk1 hk2
      simp only [Except.ok.injEq] at hk1 hk2
      subst hk1
      subst hk2
      have hR : 1 ≤ kv100 / kv0 := (one_le_div hpos).mpr hk
      exact mul_le_mul_of_nonneg_left
        (Real.rpow_le_rpow_of_exponent_le hR h12) hkv0
    | Parabolic =>
      simp only [Except.ok.injEq] at hk1 hk2
      subst hk1
      subst hk2
      have hsq : o1 ^ (2:ℕ) ≤ o2 ^ (2:ℕ) := pow_le_pow_left₀ h0 h12 2
      have := mul_le_mul_of_nonneg_left hsq (sub_nonneg.mpr hk)
      linarith

/-- C6 witness: the linear test valve at openings 0 and 1, where calc_kv
returns 1 and 2. -/
theorem calc_kv_monotone_witness :
    linValve.calc_kv 0 = Except.ok 1 ∧ linValve.calc_kv 1 = Except.ok 2 ∧
    (1:ℝ) ≤ 2 := by
  have hv0 : linValve.calc_kv 0 = Except.ok 1 := by
    simp only [ValveModel.calc_kv, linValve]
    norm_num
  have hv1 : linValve.calc_kv 1 = Except.ok 2 := by
    simp only [ValveModel.calc_kv, linValve]
    norm_num
  exact ⟨hv0, hv1, calc_kv_monotone linValve 0 1 1 2
    (by norm_num [linValve]) (by norm_num [linValve])
    (by simp [linValve]) (by norm_num) (by norm_num) (by norm_num) hv0 hv1⟩

/-- C7: `initialize_level_pressure(level, gas_pressure)` on a net-separator
returns a separator state with liquid volume = level · area, gas volume =
vessel volume − liquid volume, gas mass obtained by inverting the ideal-gas
law at the given pressure, liquid mass = liquid volume · liquid density,
gas pressure equal to the given pressure, and liquid pressure = gas
pressure + liquid density · level · 10. -/
theorem initialize_level_pressure_spec (net : NetSeparatorModel)
    (level pressure : ℝ) :
    (net.initialize_level_pressure level pressure).volume_liquid
      = level * net.separator_parameters.area ∧
    (net.initialize_level_pressure level pressure).volume_gas
      = net.separator_parameters.volume
        - (net.initialize_level_pressure level pressure).volume_liquid ∧
    (net.initialize_level_pressure level pressure).mass_gas
      = pressure * net.fluid_parameters.gas_molar_mass
          * (net.initialize_level_pressure level pressure).volume_gas
        / (net.fluid_parameters.R * net.fluid_parameters.temperature) ∧
    (net.initialize_level_pressure level pressure).mass_liquid
      = (net.initialize_level_pressure level pressure).volume_liquid
        * net.fluid_parameters.liquid_density ∧
    (net.initialize_level_pressure level pressure).pressure_gas = pressure ∧
    (net.initialize_level_pressure level pressure).pressure_liquid
      = pressure + net.fluid_parameters.liquid_density * level * 10 := by
  refine ⟨rfl, rfl, rfl, ?_, rfl, rfl⟩
  simp only [NetSeparatorModel.initialize_level_pressure,
    SeparatorModel.initialize_level_pressure]

/-- C8 counterexample: with a reverse pressure gradient the flow routine
returns 0 before ever validating the opening, so an opening of 2 (outside
[0,1]) does not raise an argument error in `get_volumetric_flow`. -/
theorem opening_unchecked_on_reverse_gradient :
    linValve.get_volumetric_flow 2 1 0 1 = Except.ok 0 := by
  simp only [ValveModel.get_volumetric_flow, linValve]
  norm_num

/-- C8 (amended): `calc_kv` raises an argument error whenever the opening is
outside [0,1]; `get_volumetric_flow` and `get_mass_flow` raise whenever
density ≤ 0, or whenever density > 0 and a pressure is negative, regardless
of the other arguments; for an out-of-range opening they raise only when
additionally density > 0, both pressures are non-negative and p_in ≥ p_out —
when p_in < p_out they return 0 without validating the opening. -/
theorem valve_argument_errors (m : ValveModel)
    (opening density pressure_in pressure_out : ℝ) :
    ((opening < 0 ∨ opening > 1) →
      m.calc_kv opening = Except.error ValveError.invalidOpening) ∧
    (density ≤ 0 →
      m.get_volumetric_flow opening density pressure_in pressure_out
        = Except.error ValveError.nonPositiveDensity ∧
      m.get_mass_flow opening density pressure_in pressure_out
        = Except.error ValveError.nonPositiveDensity) ∧
    (0 < density → (pressure_in < 0 ∨ pressure_out < 0) →
      m.get_volumetric_flow opening density pressure_in pressure_out
        = Except.error ValveError.negativePressure ∧
      m.get_mass_flow opening density pressure_in pressure_out
        = Except.error ValveError.negativePressure) ∧
    (0 < density → 0 ≤ pressure_in → 0 ≤ pressure_out →
      pressure_out ≤ pressure_in → (opening < 0 ∨ opening > 1) →
      m.get_volumetric_flow opening density pressure_in pressure_out
        = Except.error ValveError.invalidOpening ∧
      m.get_mass_flow opening density pressure_in pressure_out
        = Except.error ValveError.invalidOpening) := by
  refine ⟨?_, ?_, ?_, ?_⟩
  · intro ho
    simp only [ValveModel.calc_kv, if_pos ho]
  · intro hd
    constructor <;>
      simp only [ValveModel.get_mass_flow, ValveModel.get_volumetric_flow,
        if_pos hd, bind, Except.bind]
  · intro hd hp
    have hnd : ¬ (density ≤ 0) := not_le.mpr hd
    constructor <;>
      simp only [ValveModel.get_mass_flow, ValveModel.get_volumetric_flow,
        if_neg hnd, if_pos hp, bind, Except.bind]
  · intro hd hpi hpo hge ho
    have hnd : ¬ (density ≤ 0) := not_le.mpr hd
    have hnp : ¬ (pressure_in < 0 ∨ pressure_out < 0) := by
      push_neg
      exact ⟨hpi, hpo⟩
    have hdp : ¬ (pressure_in - pressure_out < 0) := not_lt.mpr (sub_nonneg.mpr hge)
    constructor <;>
      simp only [ValveModel.get_mass_flow, ValveModel.get_volumetric_flow,
        if_neg hnd, if_neg hnp, if_neg hdp, ValveModel.calc_kv, if_pos ho,
        bind, Except.bind]

/-- C8 witness: the amended theorem at opening 2 with density 1 and forward
pressure gradient 1 → 0: both the characteristic and the flow evaluation
report the invalid opening. -/
theorem valve_argument_errors_witness :
    linValve.calc_kv 2 = Except.error ValveError.invalidOpening ∧
    linValve.get_volumetric_flow 2 1 1 0 = Except.error ValveError.invalidOpening ∧
    linValve.get_mass_flow 2 1 1 0 = Except.error ValveError.invalidOpening :=
  ⟨(valve_argument_errors linValve 2 1 1 0).1 (by norm_num),
   ((valve_argument_errors linValve 2 1 1 0).2.2.2 (by norm_num) (by norm_num)
     (by norm_num) (by norm_num) (by norm_num)).1,
   ((valve_argument_errors linValve 2 1 1 0).2.2.2 (by norm_num) (by norm_num)
     (by norm_num) (by norm_num) (by norm_num)).2⟩

/-- C9 counterexample: equal-percentage parameters with kv0 = 0 and every
field set pass `validate` without any configuration error, so constructing
the valve model does not raise eagerly. -/
theorem ep_kv0_zero_validate_ok : epZeroParams.validate = Except.ok true := by
  have herr : epZeroParams.validationErrors = [] := by
    simp only [ValveParameters.validationErrors, epZeroParams, Option.getD_some]
    norm_num
    exact ⟨⟨Option.some_ne_none _, Option.some_ne_none _⟩,
      Option.some_ne_none _, Option.some_ne_none _⟩
  simp [ValveParameters.validate, herr]

/-- C9 (amended): constructing a `ValveModel` with the EqualPercent
characteristic and kv0 = 0 (kv100 ≥ 0 and the other fields set) succeeds —
validation raises no error — and the kv0 ≤ 0 configuration error is raised
only lazily, by the first `calc_kv` call whose opening is not cut off. -/
theorem ep_kv0_zero_lazy_error (k : ℝ) (b : Bool) (opening : ℝ)
    (hk : 0 ≤ k) (h0 : 0 < opening) (h1 : opening ≤ 1) :
    ValveModel.ofParameters
      { kv0 := some 0, kv100 := some k, type := some KvType.EqualPercent,
        cutoff := some b }
      = Except.ok { kv0 := 0, kv100 := k, type := KvType.EqualPercent, cutoff := b } ∧
    ValveModel.calc_kv
      { kv0 := 0, kv100 := k, type := KvType.EqualPercent, cutoff := b } opening
      = Except.error ValveError.nonPositiveKv0 := by
  constructor
  · have herr : ValveParameters.validationErrors
        { kv0 := some 0, kv100 := some k, type := some KvType.EqualPercent,
          cutoff := some b } = [] := by
      simp only [ValveParameters.validationErrors, Option.getD_some]
      norm_num [not_lt.mpr hk]
      exact ⟨⟨Option.some_ne_none _, Option.some_ne_none _⟩,
        Option.some_ne_none _, Option.some_ne_none _⟩
    have hvalid : ValveParameters.validate
        { kv0 := some 0, kv100 := some k, type := some KvType.EqualPercent,
          cutoff := some b } = Except.ok true := by
      simp [ValveParameters.validate, herr]
    simp only [ValveModel.ofParameters, hvalid]
  · rw [calc_kv_eq_of_bounds _ opening h0.le h1]
    have hc : ¬ (opening = 0 ∧
        ({ kv0 := 0, kv100 := k, type := KvType.EqualPercent, cutoff := b }
          : ValveModel).cutoff) := by
      rintro ⟨hz, -⟩
      exact absurd (hz ▸ h0) (lt_irrefl 0)
    rw [if_neg hc]
    simp

/-- C9 witness: the amended theorem at kv100 = 10, cutoff enabled and
opening 1. -/
theorem ep_kv0_zero_lazy_error_witness :
    ValveModel.ofParameters
      { kv0 := some 0, kv100 := some 10, type := some KvType.EqualPercent,
        cutoff := some true }
      = Except.ok { kv0 := 0, kv100 := 10, type := KvType.EqualPercent, cutoff := true } ∧
    ValveModel.calc_kv
      { kv0 := 0, kv100 := 10, type := KvType.EqualPercent, cutoff := true } 1
      = Except.error ValveError.nonPositiveKv0 :=
  ep_kv0_zero_lazy_error 10 true 1 (by norm_num) (by norm_num) (by norm_num)

end SepSim
